import Mathlib

set_option maxRecDepth 4000

/-!
Shallow embedding of `src/js/tracing/reactnavigationv5.ts`
(`ReactNavigationV5Instrumentation`) from sentry-react-native.

The instrumentation is an event-driven state machine: `_onDispatch` creates a
blank pending transaction and arms a discard timer; `_onStateChange` decorates
the pending transaction with route context and may cancel the timer;
`_discardLatestTransaction` (the timer callback) unsamples and finishes the
pending transaction. We model the mutable instance fields, the global
registration flag, the transaction objects, the armed timers and the log as one
explicit state record, and each handler as a pure state transformer.
-/

namespace SentryReactNavigationV5

/-- JSON-like values, used for route `params` payloads and for the `data`
mapping of a transaction context. -/
inductive JVal where
  | str (s : String)
  | bool (b : Bool)
  | null
  | obj (fields : List (String × JVal))

/-- JavaScript object-spread update `{...l, k: v}`: if `k` is already a key its
value is replaced in place, otherwise the binding is appended. -/
def setKey {α : Type} (l : List (String × α)) (k : String) (v : α) : List (String × α) :=
  if l.any (fun p => p.1 = k) then
    l.map (fun p => if p.1 = k then (k, v) else p)
  else
    l ++ [(k, v)]

/-- Field lookup on a JavaScript-object association list. -/
def lookupKey {α : Type} (l : List (String × α)) (k : String) : Option α :=
  match l with
  | [] => none
  | p :: rest => if p.1 = k then some p.2 else lookupKey rest k

/-- Source `NavigationRouteV5`: a route has a `name`, a unique `key`, and optional
`params`. -/
structure NavigationRouteV5 where
  name : String
  key : String
  params : Option (List (String × JVal))

/-- A transaction context: `name`, `op`, a `tags` mapping, a `data` mapping and
the tri-state `sampled` flag (absent / true / false). -/
structure TxContext where
  name : String
  op : String
  tags : List (String × String)
  data : List (String × JVal)
  sampled : Option Bool

/-- Source `ReactNavigationV5Instrumentation.instrumentationName`. -/
def instrumentationName : String := "react-navigation-v5"

/-- Source `BLANK_TRANSACTION_CONTEXT_V5`: the blank template context every dispatch
seeds its transaction with. -/
def BLANK_TRANSACTION_CONTEXT_V5 : TxContext :=
  { name := "Route Change"
    op := "navigation"
    tags := [("routing.instrumentation", instrumentationName)]
    data := []
    sampled := none }

/-- The external transaction object, as far as the controller touches it:
its live context (`toContext` / `updateWithContext` / the `sampled` field) and
whether `finish()` has been invoked. -/
structure Transaction where
  context : TxContext
  finished : Bool

/-- A freshly created transaction as the collaborator returns it for the blank
template context: blank context, not finished. -/
def blankTransaction : Transaction :=
  { context := BLANK_TRANSACTION_CONTEXT_V5, finished := false }

/-- Tags for the log lines the controller emits (`logger.log` / `warn` /
`error` calls in the source, identified by message). -/
inductive LogEntry where
  | logAlreadyRegistered
  | warnInvalidContainerRef
  | logContainerRegisteredNotSetup
  | warnMissingNavigationContainer
  | errorBeforeNavigateReturnedNull
  | logWillNotSendDueToBeforeNavigate
deriving DecidableEq

/-- The whole mutable state: the controller's instance fields (named as in the
source), the transaction store, the set of armed (scheduled, not yet fired or
cleared) timers with a fresh-id counter, the attached listener event names, the
process-wide `__sentry_rn_v5_registered` flag, and the log. -/
structure Sys where
  _navigationContainer : Option Unit
  _latestRoute : Option NavigationRouteV5
  _latestTransaction : Option Nat
  _initialStateHandled : Bool
  _stateChangeTimeout : Option Nat
  _recentRouteKeys : List String
  txs : List Transaction
  armedTimers : List Nat
  nextTimer : Nat
  listeners : List String
  registered : Bool
  log : List LogEntry

/-- The state at process start: fields as initialized in the class
declaration, no transactions, no timers, flag unset. -/
def initSys : Sys :=
  { _navigationContainer := none
    _latestRoute := none
    _latestTransaction := none
    _initialStateHandled := false
    _stateChangeTimeout := none
    _recentRouteKeys := []
    txs := []
    armedTimers := []
    nextTimer := 0
    listeners := []
    registered := false
    log := [] }

/-- Source `_maxRecentRouteLen`: capacity of the recent-route-key ledger. -/
def _maxRecentRouteLen : Nat := 200

/-- Source `_pushRecentRouteKey`: push a key, then if the length exceeds the max,
keep only the most recent `_maxRecentRouteLen` entries (the
`slice(length - max)` call). -/
def _pushRecentRouteKey (keys : List String) (key : String) : List String :=
  let pushed := keys ++ [key]
  if _maxRecentRouteLen < pushed.length then
    pushed.drop (pushed.length - _maxRecentRouteLen)
  else
    pushed

/-- The `data.route` object built in `_onStateChange`: route name, key,
`params ?? {}` and the `hasBeenSeen` ledger-membership flag. -/
def routeDataJVal (route : NavigationRouteV5) (hasBeenSeen : Bool) : JVal :=
  .obj [("name", .str route.name), ("key", .str route.key),
        ("params", .obj (route.params.getD [])), ("hasBeenSeen", .bool hasBeenSeen)]

/-- The `data.previousRoute` value built in `_onStateChange`: the previous
route's name, key and `params ?? {}` when one exists, else `null`. -/
def previousRouteJVal : Option NavigationRouteV5 → JVal
  | some p => .obj [("name", .str p.name), ("key", .str p.key),
                    ("params", .obj (p.params.getD []))]
  | none => .null

/-- The `updatedContext` object literal of `_onStateChange`: spread of the
snapshot with `name` replaced, the `routing.route.name` tag set, and
`data.route` / `data.previousRoute` set. -/
def updatedContextOf (originalContext : TxContext) (route : NavigationRouteV5)
    (previousRoute : Option NavigationRouteV5) (routeHasBeenSeen : Bool) : TxContext :=
  { originalContext with
    name := route.name
    tags := setKey originalContext.tags "routing.route.name" route.name
    data := setKey (setKey originalContext.data "route" (routeDataJVal route routeHasBeenSeen))
      "previousRoute" (previousRouteJVal previousRoute) }

/-- The route-change gate of `_onStateChange`:
`!previousRoute || previousRoute.key !== route.key`. -/
def routeChanged : Option NavigationRouteV5 → NavigationRouteV5 → Bool
  | none, _ => true
  | some p, route => p.key != route.key

/-- Modify the transaction with the given id in the store. -/
def modifyTx (txs : List Transaction) (i : Nat) (f : Transaction → Transaction) :
    List Transaction :=
  match txs[i]? with
  | some tx => txs.set i (f tx)
  | none => txs

/-- Modelled from the spec: `onRouteWillChange` of the parent class
`RoutingInstrumentation` is not under `src/`; per the spec it asks the
transaction-creation collaborator for a new transaction seeded with the given
context and returns it. Here it allocates a fresh transaction in the store and
returns its id. -/
def onRouteWillChange (s : Sys) (context : TxContext) : Sys × Nat :=
  ({ s with txs := s.txs ++ [{ context := context, finished := false }] }, s.txs.length)

/-- Host `setTimeout`: arm a fresh timer (its callback is always
`_discardLatestTransaction`) and return its id. -/
def setTimeoutDiscard (s : Sys) : Sys × Nat :=
  ({ s with armedTimers := s.nextTimer :: s.armedTimers, nextTimer := s.nextTimer + 1 },
   s.nextTimer)

/-- Host `clearTimeout`: disarm the given timer. -/
def clearTimeoutM (s : Sys) (tid : Nat) : Sys :=
  { s with armedTimers := s.armedTimers.erase tid }

/-- Source `_onDispatch`: create a blank-context transaction via `onRouteWillChange`,
store it as `_latestTransaction`, and arm a discard timer whose id overwrites
`_stateChangeTimeout`. -/
def _onDispatch (s : Sys) : Sys :=
  let created := onRouteWillChange s BLANK_TRANSACTION_CONTEXT_V5
  let s2 := { created.1 with _latestTransaction := some created.2 }
  let armed := setTimeoutDiscard s2
  { armed.1 with _stateChangeTimeout := some armed.2 }

/-- Source `_discardLatestTransaction`: if a transaction is pending, set its `sampled`
field to `false`, call `finish()` and clear the reference; else do nothing. -/
def _discardLatestTransaction (s : Sys) : Sys :=
  match s._latestTransaction with
  | some txId =>
    { s with
      txs := modifyTx s.txs txId (fun tx =>
        { tx with context := { tx.context with sampled := some false }, finished := true })
      _latestTransaction := none }
  | none => s

/-- The body of the route-change `if` block in `_onStateChange`: snapshot the
pending transaction's context, build the updated context, run `_beforeNavigate`,
substitute an unsampled copy when it returns nothing, decide on the timer, and
apply the final context to the transaction. -/
def decorateTransaction (beforeNavigate : TxContext → Option TxContext)
    (route : NavigationRouteV5) (previousRoute : Option NavigationRouteV5)
    (txId : Nat) (s : Sys) : Sys :=
  let originalContext := (s.txs.getD txId blankTransaction).context
  let routeHasBeenSeen := s._recentRouteKeys.contains route.key
  let updatedContext := updatedContextOf originalContext route previousRoute routeHasBeenSeen
  let hooked :=
    match beforeNavigate updatedContext with
    | some c => (c, s)
    | none =>
      ({ updatedContext with sampled := some false },
       { s with log := s.log ++ [LogEntry.errorBeforeNavigateReturnedNull] })
  let finalContext := hooked.1
  let s1 := hooked.2
  let s2 :=
    if finalContext.sampled = some false then
      { s1 with log := s1.log ++ [LogEntry.logWillNotSendDueToBeforeNavigate] }
    else
      match s1._stateChangeTimeout with
      | some tid => { s1 with armedTimers := s1.armedTimers.erase tid, _stateChangeTimeout := none }
      | none => s1
  { s2 with txs := modifyTx s2.txs txId (fun tx => { tx with context := finalContext }) }

/-- Source `_onStateChange`: warn-and-return without a container; return without a
route; decorate the pending transaction when the route key changed; always
record the route key in the ledger and update `_latestRoute` when a route was
obtained. `getCurrentRoute` is passed in as the route the container would
report at this moment. -/
def _onStateChange (beforeNavigate : TxContext → Option TxContext)
    (getCurrentRoute : Option NavigationRouteV5) (s : Sys) : Sys :=
  let previousRoute := s._latestRoute
  match s._navigationContainer with
  | none => { s with log := s.log ++ [LogEntry.warnMissingNavigationContainer] }
  | some _ =>
    match getCurrentRoute with
    | none => s
    | some route =>
      let s1 :=
        match s._latestTransaction with
        | some txId =>
          if routeChanged previousRoute route then
            decorateTransaction beforeNavigate route previousRoute txId s
          else s
        | none => s
      { s1 with
        _recentRouteKeys := _pushRecentRouteKey s1._recentRouteKeys route.key
        _latestRoute := some route }

/-- A timer firing: only an armed timer can fire; it is consumed and its
callback `_discardLatestTransaction` runs. -/
def fireTimer (s : Sys) (tid : Nat) : Sys :=
  if tid ∈ s.armedTimers then
    _discardLatestTransaction { s with armedTimers := s.armedTimers.erase tid }
  else s

/-- The argument of `registerNavigationContainer`: either a container (or
nothing) passed directly, or a ref object with a `current` field. -/
inductive ContainerRef where
  | direct (c : Option Unit)
  | withCurrent (current : Option Unit)
deriving DecidableEq

/-- Resolution of the ref: `"current" in ref ? ref.current : ref`. -/
def resolveRef : ContainerRef → Option Unit
  | .withCurrent c => c
  | .direct c => c

/-- Source `registerNavigationContainer`: guarded by the process-wide flag; resolves
the ref, attaches the two listeners, runs the initial-state catch-up, and sets
the flag; logs a warning on an invalid ref. `routeNow` is what
`getCurrentRoute` would report during the inner `_onStateChange` call. -/
def registerNavigationContainer (beforeNavigate : TxContext → Option TxContext)
    (routeNow : Option NavigationRouteV5) (ref : ContainerRef) (s : Sys) : Sys :=
  if s.registered then
    { s with log := s.log ++ [LogEntry.logAlreadyRegistered] }
  else
    let s0 := { s with _navigationContainer := resolveRef ref }
    match resolveRef ref with
    | some _ =>
      let s1 := { s0 with listeners := s0.listeners ++ ["__unsafe_action__", "state"] }
      let s2 :=
        if s1._initialStateHandled then s1
        else
          if s1._latestTransaction.isSome then
            { (_onStateChange beforeNavigate routeNow s1) with _initialStateHandled := true }
          else
            { s1 with log := s1.log ++ [LogEntry.logContainerRegisteredNotSetup] }
      { s2 with registered := true }
    | none =>
      { s0 with log := s0.log ++ [LogEntry.warnInvalidContainerRef] }

/-- The events the environment can deliver to the controller. -/
inductive Ev where
  | dispatch
  | stateChange (route : Option NavigationRouteV5)
  | timer (tid : Nat)
  | register (ref : ContainerRef) (routeNow : Option NavigationRouteV5)

/-- One step of the event-driven state machine, for a fixed `beforeNavigate`
hook. -/
def step (beforeNavigate : TxContext → Option TxContext) : Ev → Sys → Sys
  | .dispatch, s => _onDispatch s
  | .stateChange route, s => _onStateChange beforeNavigate route s
  | .timer tid, s => fireTimer s tid
  | .register ref routeNow, s => registerNavigationContainer beforeNavigate routeNow ref s

/-- A hook that returns the proposed context unchanged. -/
def idHook : TxContext → Option TxContext := fun c => some c

/-! ## Helper lemmas -/

lemma pushRecentRouteKey_length_le (l : List String) (k : String)
    (hl : l.length ≤ _maxRecentRouteLen) :
    (_pushRecentRouteKey l k).length ≤ _maxRecentRouteLen := by
  simp only [_pushRecentRouteKey]
  split
  · simp only [List.length_drop]
    omega
  · next h =>
    simp only [List.length_append, List.length_cons, List.length_nil] at h ⊢
    omega

lemma pushRecentRouteKey_eq_drop (l : List String) (k : String)
    (hl : l.length ≤ _maxRecentRouteLen) :
    _pushRecentRouteKey l k = (l ++ [k]).drop ((l ++ [k]).length - _maxRecentRouteLen) := by
  simp only [_pushRecentRouteKey]
  split
  · rfl
  · next h =>
    have h0 : (l ++ [k]).length - _maxRecentRouteLen = 0 := by omega
    rw [h0, List.drop_zero]

lemma foldl_pushRecentRouteKey (ks : List String) :
    ∀ l : List String, l.length ≤ _maxRecentRouteLen →
      ks.foldl _pushRecentRouteKey l =
        (l ++ ks).drop ((l ++ ks).length - _maxRecentRouteLen) := by
  induction ks with
  | nil =>
    intro l hl
    have h0 : l.length - _maxRecentRouteLen = 0 := by omega
    simp only [List.foldl_nil, List.append_nil, h0, List.drop_zero]
  | cons k ks ih =>
    intro l hl
    rw [List.foldl_cons, ih (_pushRecentRouteKey l k) (pushRecentRouteKey_length_le l k hl),
      pushRecentRouteKey_eq_drop l k hl]
    have hd : (l ++ [k]).length - _maxRecentRouteLen ≤ (l ++ [k]).length := Nat.sub_le _ _
    rw [← List.drop_append_of_le_length hd, List.drop_drop]
    rw [List.append_assoc, List.singleton_append]
    congr 1
    simp only [List.length_drop, List.length_append, List.length_cons, List.length_nil]
    omega

lemma modifyTx_length (l : List Transaction) (i : Nat) (g : Transaction → Transaction) :
    (modifyTx l i g).length = l.length := by
  unfold modifyTx
  split <;> simp

lemma modifyTx_getElem_self (l : List Transaction) (i : Nat) (g : Transaction → Transaction)
    (tx : Transaction) (h : l[i]? = some tx) :
    (modifyTx l i g)[i]? = some (g tx) := by
  unfold modifyTx
  rw [h]
  have hlt : i < l.length := (List.getElem?_eq_some_iff.mp h).1
  simp [List.getElem?_set_self hlt]

lemma onDispatch_fields (s : Sys) :
    (_onDispatch s).txs = s.txs ++ [blankTransaction] ∧
    (_onDispatch s)._latestTransaction = some s.txs.length ∧
    (_onDispatch s).armedTimers = s.nextTimer :: s.armedTimers ∧
    (_onDispatch s)._stateChangeTimeout = some s.nextTimer ∧
    (_onDispatch s).nextTimer = s.nextTimer + 1 ∧
    (_onDispatch s)._navigationContainer = s._navigationContainer ∧
    (_onDispatch s)._latestRoute = s._latestRoute ∧
    (_onDispatch s)._recentRouteKeys = s._recentRouteKeys ∧
    (_onDispatch s).registered = s.registered ∧
    (_onDispatch s).listeners = s.listeners ∧
    (_onDispatch s).log = s.log :=
  ⟨rfl, rfl, rfl, rfl, rfl, rfl, rfl, rfl, rfl, rfl, rfl⟩

lemma iterate_onDispatch (n : Nat) :
    ∀ s : Sys,
      (_onDispatch^[n] s).txs = s.txs ++ List.replicate n blankTransaction ∧
      (_onDispatch^[n] s)._latestTransaction =
        (if n = 0 then s._latestTransaction else some (s.txs.length + n - 1)) := by
  induction n with
  | zero =>
    intro s
    simp
  | succ n ih =>
    intro s
    rw [Function.iterate_succ_apply]
    obtain ⟨h1, h2⟩ := ih (_onDispatch s)
    refine ⟨?_, ?_⟩
    · rw [h1, (onDispatch_fields s).1, List.append_assoc, List.singleton_append,
        ← List.replicate_succ]
    · rw [h2, (onDispatch_fields s).1]
      by_cases hn : n = 0
      · subst hn
        simp [(onDispatch_fields s).2.1]
      · rw [if_neg hn, if_neg (Nat.succ_ne_zero n)]
        simp only [List.length_append, List.length_cons, List.length_nil]
        congr 1
        omega

lemma lookupKey_map_replace {α : Type} (l : List (String × α)) (k : String) (v : α)
    (h : l.any (fun p => p.1 = k) = true) :
    lookupKey (l.map (fun p => if p.1 = k then (k, v) else p)) k = some v := by
  induction l with
  | nil => simp at h
  | cons p rest ih =>
    by_cases hp : p.1 = k
    · simp [lookupKey, hp]
    · simp only [List.any_cons, Bool.or_eq_true, decide_eq_true_eq] at h
      rcases h with h | h
      · exact absurd h hp
      · simp only [List.map_cons, if_neg hp, lookupKey, hp, if_false]
        exact ih h

lemma lookupKey_append_single {α : Type} (l : List (String × α)) (k : String) (v : α) :
    lookupKey (l ++ [(k, v)]) k = ((lookupKey l k).getD v |> some) := by
  induction l with
  | nil => simp [lookupKey]
  | cons p rest ih =>
    by_cases hp : p.1 = k
    · simp [lookupKey, hp]
    · simp only [List.cons_append, lookupKey, hp, if_false]
      exact ih

lemma lookupKey_map_replace_ne {α : Type} (l : List (String × α)) (k k2 : String) (v : α)
    (hne : k2 ≠ k) :
    lookupKey (l.map (fun p => if p.1 = k then (k, v) else p)) k2 = lookupKey l k2 := by
  induction l with
  | nil => rfl
  | cons p rest ih =>
    by_cases hp : p.1 = k
    · have h1 : ¬(k = k2) := fun h => hne h.symm
      have h2 : ¬(p.1 = k2) := by rw [hp]; exact h1
      simp only [List.map_cons, if_pos hp, lookupKey, h1, h2, if_false]
      exact ih
    · simp only [List.map_cons, if_neg hp, lookupKey]
      by_cases hp2 : p.1 = k2
      · simp [hp2]
      · simp only [hp2, if_false]
        exact ih

lemma lookupKey_append_single_ne {α : Type} (l : List (String × α)) (k k2 : String) (v : α)
    (hne : k2 ≠ k) :
    lookupKey (l ++ [(k, v)]) k2 = lookupKey l k2 := by
  induction l with
  | nil =>
    have hk2 : ¬(k = k2) := fun h => hne h.symm
    simp [lookupKey, hk2]
  | cons p rest ih =>
    simp only [List.cons_append, lookupKey]
    by_cases hp2 : p.1 = k2
    · simp [hp2]
    · simp only [hp2, if_false]
      exact ih

lemma lookupKey_setKey_self {α : Type} (l : List (String × α)) (k : String) (v : α) :
    lookupKey (setKey l k v) k = some v := by
  unfold setKey
  split
  · next h => exact lookupKey_map_replace l k v h
  · next h =>
    rw [lookupKey_append_single]
    have h0 : lookupKey l k = none := by
      induction l with
      | nil => rfl
      | cons p rest ih =>
        simp only [List.any_cons, Bool.or_eq_true, decide_eq_true_eq, not_or] at h
        simp only [lookupKey, h.1, if_false]
        exact ih (by simpa using h.2)
    rw [h0]
    rfl

lemma lookupKey_setKey_ne {α : Type} (l : List (String × α)) (k k2 : String) (v : α)
    (hne : k2 ≠ k) :
    lookupKey (setKey l k v) k2 = lookupKey l k2 := by
  unfold setKey
  split
  · exact lookupKey_map_replace_ne l k k2 v hne
  · exact lookupKey_append_single_ne l k k2 v hne

lemma decorate_preserved (f : TxContext → Option TxContext) (route : NavigationRouteV5)
    (previousRoute : Option NavigationRouteV5) (txId : Nat) (s : Sys) :
    (decorateTransaction f route previousRoute txId s)._recentRouteKeys = s._recentRouteKeys ∧
    (decorateTransaction f route previousRoute txId s).registered = s.registered ∧
    (decorateTransaction f route previousRoute txId s).listeners = s.listeners ∧
    (decorateTransaction f route previousRoute txId s)._navigationContainer =
      s._navigationContainer ∧
    (decorateTransaction f route previousRoute txId s)._latestTransaction =
      s._latestTransaction ∧
    (decorateTransaction f route previousRoute txId s)._latestRoute = s._latestRoute ∧
    (decorateTransaction f route previousRoute txId s)._initialStateHandled =
      s._initialStateHandled ∧
    (decorateTransaction f route previousRoute txId s).nextTimer = s.nextTimer := by
  cases hfu : f (updatedContextOf (s.txs.getD txId blankTransaction).context route previousRoute
      (s._recentRouteKeys.contains route.key)) <;>
    simp only [decorateTransaction, hfu] <;>
    split <;>
    first
      | exact ⟨rfl, rfl, rfl, rfl, rfl, rfl, rfl, rfl⟩
      | (split <;> exact ⟨rfl, rfl, rfl, rfl, rfl, rfl, rfl, rfl⟩)

lemma decorate_some (f : TxContext → Option TxContext) (s : Sys) (route : NavigationRouteV5)
    (previousRoute : Option NavigationRouteV5) (txId : Nat) (tx : Transaction) (c : TxContext)
    (htx : s.txs[txId]? = some tx)
    (hf : f (updatedContextOf tx.context route previousRoute
      (s._recentRouteKeys.contains route.key)) = some c) :
    ((decorateTransaction f route previousRoute txId s).txs[txId]? =
      some { tx with context := c }) ∧
    (c.sampled = some false →
      (decorateTransaction f route previousRoute txId s)._stateChangeTimeout =
        s._stateChangeTimeout ∧
      (decorateTransaction f route previousRoute txId s).armedTimers = s.armedTimers) ∧
    (¬c.sampled = some false →
      (decorateTransaction f route previousRoute txId s)._stateChangeTimeout = none ∧
      (decorateTransaction f route previousRoute txId s).armedTimers =
        (match s._stateChangeTimeout with
          | some tid => s.armedTimers.erase tid
          | none => s.armedTimers)) := by
  have hgetD : s.txs.getD txId blankTransaction = tx := by
    rw [List.getD_eq_getElem?_getD, htx]
    rfl
  by_cases hcs : c.sampled = some false
  · refine ⟨?_, fun _ => ⟨?_, ?_⟩, fun hne => absurd hcs hne⟩
    · simp only [decorateTransaction, hgetD, hf, hcs, if_pos]
      exact modifyTx_getElem_self _ _ _ tx htx
    · simp only [decorateTransaction, hgetD, hf, hcs, if_pos]
    · simp only [decorateTransaction, hgetD, hf, hcs, if_pos]
  · refine ⟨?_, fun h => absurd h hcs, fun _ => ?_⟩
    · simp only [decorateTransaction, hgetD, hf, if_neg hcs]
      cases hst : s._stateChangeTimeout <;>
        simp only [hst] <;>
        exact modifyTx_getElem_self _ _ _ tx htx
    · cases hst : s._stateChangeTimeout <;>
        simp only [decorateTransaction, hgetD, hf, if_neg hcs, hst] <;>
        exact ⟨by trivial, by trivial⟩

lemma decorate_none (f : TxContext → Option TxContext) (s : Sys) (route : NavigationRouteV5)
    (previousRoute : Option NavigationRouteV5) (txId : Nat) (tx : Transaction)
    (htx : s.txs[txId]? = some tx)
    (hf : f (updatedContextOf tx.context route previousRoute
      (s._recentRouteKeys.contains route.key)) = none) :
    ((decorateTransaction f route previousRoute txId s).txs[txId]? =
      some { tx with context :=
        { updatedContextOf tx.context route previousRoute
            (s._recentRouteKeys.contains route.key) with sampled := some false } }) ∧
    (decorateTransaction f route previousRoute txId s)._stateChangeTimeout =
      s._stateChangeTimeout ∧
    (decorateTransaction f route previousRoute txId s).armedTimers = s.armedTimers ∧
    LogEntry.errorBeforeNavigateReturnedNull ∈
      (decorateTransaction f route previousRoute txId s).log := by
  have hgetD : s.txs.getD txId blankTransaction = tx := by
    rw [List.getD_eq_getElem?_getD, htx]
    rfl
  refine ⟨?_, ?_, ?_, ?_⟩
  · simp only [decorateTransaction, hgetD, hf]
    exact modifyTx_getElem_self _ _ _ tx htx
  · simp only [decorateTransaction, hgetD, hf]
    rfl
  · simp only [decorateTransaction, hgetD, hf]
    rfl
  · simp only [decorateTransaction, hgetD, hf]
    have hred : (if ({ updatedContextOf tx.context route previousRoute
        (s._recentRouteKeys.contains route.key) with sampled := some false }.sampled = some false)
        then True else False) := by
      rw [if_pos rfl]
      trivial
    simp

lemma onStateChange_decorate_proj (f : TxContext → Option TxContext)
    (route : NavigationRouteV5) (s : Sys) (txId : Nat)
    (hc : s._navigationContainer = some ())
    (hlt : s._latestTransaction = some txId)
    (hrc : routeChanged s._latestRoute route = true) :
    (_onStateChange f (some route) s).txs =
      (decorateTransaction f route s._latestRoute txId s).txs ∧
    (_onStateChange f (some route) s)._stateChangeTimeout =
      (decorateTransaction f route s._latestRoute txId s)._stateChangeTimeout ∧
    (_onStateChange f (some route) s).armedTimers =
      (decorateTransaction f route s._latestRoute txId s).armedTimers ∧
    (_onStateChange f (some route) s).log =
      (decorateTransaction f route s._latestRoute txId s).log := by
  simp only [_onStateChange, hc, hlt, hrc, if_true]
  exact ⟨by trivial, by trivial, by trivial, by trivial⟩

lemma onStateChange_gated (f : TxContext → Option TxContext) (s : Sys)
    (route p : NavigationRouteV5)
    (hc : s._navigationContainer = some ())
    (hlr : s._latestRoute = some p)
    (hkey : p.key = route.key) :
    _onStateChange f (some route) s =
      { s with
        _recentRouteKeys := _pushRecentRouteKey s._recentRouteKeys route.key
        _latestRoute := some route } := by
  have hrc : routeChanged s._latestRoute route = false := by
    rw [hlr]
    simp [routeChanged, hkey]
  simp only [_onStateChange, hc, hrc]
  cases hlt2 : s._latestTransaction <;> simp [hc, hlt2]

lemma onStateChange_route_updates (f : TxContext → Option TxContext)
    (r : NavigationRouteV5) (s : Sys)
    (hc : s._navigationContainer = some ()) :
    (_onStateChange f (some r) s)._latestRoute = some r ∧
    (_onStateChange f (some r) s)._recentRouteKeys =
      _pushRecentRouteKey s._recentRouteKeys r.key := by
  simp only [_onStateChange, hc]
  rcases s._latestTransaction with _ | txId
  · exact ⟨by trivial, by trivial⟩
  · dsimp only
    split
    · exact ⟨by trivial, by rw [(decorate_preserved f r s._latestRoute txId s).1]⟩
    · exact ⟨by trivial, by trivial⟩

lemma onStateChange_preserved (f : TxContext → Option TxContext)
    (r? : Option NavigationRouteV5) (s : Sys) :
    (_onStateChange f r? s).registered = s.registered ∧
    (_onStateChange f r? s).listeners = s.listeners := by
  unfold _onStateChange
  rcases s._navigationContainer with _ | u
  · exact ⟨rfl, rfl⟩
  · rcases r? with _ | route
    · exact ⟨rfl, rfl⟩
    · dsimp only
      rcases s._latestTransaction with _ | txId
      · exact ⟨rfl, rfl⟩
      · dsimp only
        split
        · have h := decorate_preserved f route s._latestRoute txId s
          exact ⟨h.2.1, h.2.2.1⟩
        · exact ⟨rfl, rfl⟩

lemma discard_preserved (s : Sys) :
    (_discardLatestTransaction s).registered = s.registered ∧
    (_discardLatestTransaction s).listeners = s.listeners := by
  unfold _discardLatestTransaction
  rcases s._latestTransaction with _ | txId <;> exact ⟨rfl, rfl⟩

lemma fireTimer_preserved (s : Sys) (tid : Nat) :
    (fireTimer s tid).registered = s.registered ∧
    (fireTimer s tid).listeners = s.listeners := by
  unfold fireTimer
  split
  · exact discard_preserved { s with armedTimers := s.armedTimers.erase tid }
  · exact ⟨rfl, rfl⟩

lemma register_monotone (f : TxContext → Option TxContext)
    (routeNow : Option NavigationRouteV5) (ref : ContainerRef) (s : Sys)
    (h : s.registered = true) :
    (registerNavigationContainer f routeNow ref s).registered = true := by
  simp [registerNavigationContainer, h]

/-! ## Claims -/

/-- Claim C1, counterexample: after two dispatch events with no intervening
state-change, the first discard timer is still armed alongside the second —
`_onDispatch` overwrites `_stateChangeTimeout` without clearing the previous
timer — so two discard timers are outstanding at once, refuting "at most one
discard timer is outstanding at any time, … cleared whenever that transaction
is … superseded by a new dispatch". -/
theorem timer_not_unique_counterexample :
    (_onDispatch (_onDispatch initSys)).armedTimers = [1, 0] ∧
    ¬(_onDispatch (_onDispatch initSys)).armedTimers.length ≤ 1 ∧
    (_onDispatch (_onDispatch initSys))._latestTransaction = some 1 ∧
    (_onDispatch (_onDispatch initSys))._stateChangeTimeout = some 1 :=
  ⟨rfl, by decide, rfl, rfl⟩

/-- Claim C2: after `n ≥ 1` dispatch events with no intervening state-change,
exactly one transaction is pending — the one created by the most recent
dispatch — seeded from the blank template context, and every transaction
created by the earlier dispatches of the sequence is still exactly as created:
its finish operation has not been called and its sampled flag is unset. -/
theorem single_pending_after_dispatches (n : Nat) (hn : 1 ≤ n) (s : Sys) :
    (_onDispatch^[n] s)._latestTransaction = some (s.txs.length + n - 1) ∧
    (∀ i : Nat, s.txs.length ≤ i → i < s.txs.length + n →
      (_onDispatch^[n] s).txs[i]? = some blankTransaction) ∧
    blankTransaction.context = BLANK_TRANSACTION_CONTEXT_V5 ∧
    blankTransaction.finished = false ∧
    BLANK_TRANSACTION_CONTEXT_V5.sampled = none := by
  obtain ⟨h1, h2⟩ := iterate_onDispatch n s
  refine ⟨?_, ?_, rfl, rfl, rfl⟩
  · rw [h2, if_neg (by omega)]
  · intro i hi1 hi2
    rw [h1, List.getElem?_append_right hi1, List.getElem?_replicate, if_pos (by omega)]

/-- Witness for C2 at `n = 2` from the initial state. -/
theorem single_pending_after_dispatches_witness :
    (1 ≤ 2) ∧
    (_onDispatch^[2] initSys)._latestTransaction = some 1 ∧
    (_onDispatch^[2] initSys).txs[0]? = some blankTransaction := by
  have h := single_pending_after_dispatches 2 (by decide) initSys
  refine ⟨by decide, ?_, ?_⟩
  · have := h.1
    simpa [initSys] using this
  · exact h.2.1 0 (by simp [initSys]) (by simp [initSys])

/-- Claim C7: recording `N > 200` keys leaves the ledger at size exactly 200,
holding exactly the most recent 200 recorded keys in insertion order (eviction
is eager on every insert), membership is equivalent to being among those
entries, and no single record operation can push the length past 200.
(The claim's distinctness assumption is not needed: this holds for every key
sequence.) -/
theorem ledger_bounded (ks : List String) (hN : 200 < ks.length) :
    (ks.foldl _pushRecentRouteKey []).length = 200 ∧
    ks.foldl _pushRecentRouteKey [] = ks.drop (ks.length - 200) ∧
    (∀ k : String, k ∈ ks.foldl _pushRecentRouteKey [] ↔ k ∈ ks.drop (ks.length - 200)) ∧
    (∀ (l : List String) (k : String), l.length ≤ 200 →
      (_pushRecentRouteKey l k).length ≤ 200) := by
  have hmax : _maxRecentRouteLen = 200 := rfl
  have hfold := foldl_pushRecentRouteKey ks [] (by simp)
  rw [List.nil_append, hmax] at hfold
  refine ⟨?_, hfold, ?_, ?_⟩
  · rw [hfold]
    simp only [List.length_drop]
    omega
  · intro k
    rw [hfold]
  · intro l k hl
    have h2 := pushRecentRouteKey_length_le l k (by rw [hmax]; exact hl)
    rwa [hmax] at h2

/-- Witness for C7 on a concrete 201-key sequence. -/
theorem ledger_bounded_witness :
    200 < (List.replicate 201 "k").length ∧
    ((List.replicate 201 "k").foldl _pushRecentRouteKey []).length = 200 := by
  have h : 200 < (List.replicate 201 "k").length := by
    rw [List.length_replicate]
    omega
  exact ⟨h, (ledger_bounded (List.replicate 201 "k") h).1⟩

lemma discard_pending (s : Sys) (txId : Nat) (tx : Transaction)
    (h1 : s._latestTransaction = some txId) (h2 : s.txs[txId]? = some tx) :
    (_discardLatestTransaction s).txs[txId]? =
      some { context := { tx.context with sampled := some false }, finished := true } ∧
    (_discardLatestTransaction s)._latestTransaction = none := by
  have hd : _discardLatestTransaction s =
      { s with
        txs := modifyTx s.txs txId (fun tx2 =>
          { tx2 with context := { tx2.context with sampled := some false }, finished := true })
        _latestTransaction := none } := by
    simp only [_discardLatestTransaction, h1]
  refine ⟨?_, ?_⟩
  · rw [hd]
    exact modifyTx_getElem_self _ _ _ tx h2
  · rw [hd]

/-- A concrete route used by witnesses. -/
def routeA : NavigationRouteV5 := { name := "A", key := "k1", params := none }

/-- A state whose navigation container is registered. -/
def readySys : Sys := { initSys with _navigationContainer := some () }

/-- A state with a container and `routeA` as the latest route. -/
def seededSys : Sys :=
  { initSys with _navigationContainer := some (), _latestRoute := some routeA }

/-- A state whose process-wide registration flag is already set. -/
def regSys : Sys := { initSys with registered := true }

/-- A hook that returns nothing, modelling a caller that forgets to return a
context. -/
def noneHook : TxContext → Option TxContext := fun _ => none

/-- Claim C1, amended: the controller tracks at most one discard-timer handle,
always the one armed by the most recent dispatch, and a finalizing (non-vetoed)
state-change cancels that timer and clears the handle; but a new dispatch
overwrites the handle without cancelling the previously armed timer, so a
superseded dispatch's timer stays outstanding and, when it fires, discards
whatever transaction is pending at that moment. -/
theorem timer_handle_amended (f : TxContext → Option TxContext) (s : Sys)
    (route : NavigationRouteV5) (txId tid : Nat) (tx : Transaction) (c : TxContext)
    (hc : s._navigationContainer = some ())
    (hlt : s._latestTransaction = some txId)
    (hrc : routeChanged s._latestRoute route = true)
    (htx : s.txs[txId]? = some tx)
    (hto : s._stateChangeTimeout = some tid)
    (hf : f (updatedContextOf tx.context route s._latestRoute
      (s._recentRouteKeys.contains route.key)) = some c)
    (hs : ¬c.sampled = some false) :
    ((_onDispatch s)._stateChangeTimeout = some s.nextTimer ∧
     (_onDispatch s).armedTimers = s.nextTimer :: s.armedTimers) ∧
    ((_onStateChange f (some route) s)._stateChangeTimeout = none ∧
     (_onStateChange f (some route) s).armedTimers = s.armedTimers.erase tid) := by
  refine ⟨⟨rfl, rfl⟩, ?_⟩
  have hproj := onStateChange_decorate_proj f route s txId hc hlt hrc
  have hd := (decorate_some f s route s._latestRoute txId tx c htx hf).2.2 hs
  refine ⟨?_, ?_⟩
  · rw [hproj.2.1, hd.1]
  · rw [hproj.2.2.1, hd.2, hto]

/-- Witness for the amended C1 on a concrete dispatch plus finalizing
state-change. -/
theorem timer_handle_amended_witness :
    (_onDispatch (_onDispatch readySys))._stateChangeTimeout = some 1 ∧
    (_onStateChange idHook (some routeA) (_onDispatch readySys))._stateChangeTimeout = none ∧
    (_onStateChange idHook (some routeA) (_onDispatch readySys)).armedTimers =
      ((_onDispatch readySys).armedTimers).erase 0 := by
  have h := timer_handle_amended idHook (_onDispatch readySys) routeA 0 0 blankTransaction
    (updatedContextOf blankTransaction.context routeA none false)
    rfl rfl rfl rfl rfl rfl (by decide)
  exact ⟨h.1.1, h.2.1, h.2.2⟩

/-- Claim C3: on a decorating state-change, if the hook returns a context with
`sampled` explicitly false, the pending discard timer is left armed; if the
hook returns a context whose `sampled` is not explicitly false, any armed
timer is canceled and the handle cleared; in both cases the final context is
applied to the pending transaction. -/
theorem veto_semantics (f : TxContext → Option TxContext) (s : Sys)
    (route : NavigationRouteV5) (txId : Nat) (tx : Transaction) (c : TxContext)
    (hc : s._navigationContainer = some ())
    (hlt : s._latestTransaction = some txId)
    (hrc : routeChanged s._latestRoute route = true)
    (htx : s.txs[txId]? = some tx)
    (hf : f (updatedContextOf tx.context route s._latestRoute
      (s._recentRouteKeys.contains route.key)) = some c) :
    ((_onStateChange f (some route) s).txs[txId]? = some { tx with context := c }) ∧
    (c.sampled = some false →
      (_onStateChange f (some route) s)._stateChangeTimeout = s._stateChangeTimeout ∧
      (_onStateChange f (some route) s).armedTimers = s.armedTimers) ∧
    (¬c.sampled = some false →
      (_onStateChange f (some route) s)._stateChangeTimeout = none ∧
      (_onStateChange f (some route) s).armedTimers =
        (match s._stateChangeTimeout with
          | some tid => s.armedTimers.erase tid
          | none => s.armedTimers)) := by
  have hproj := onStateChange_decorate_proj f route s txId hc hlt hrc
  have hdec := decorate_some f s route s._latestRoute txId tx c htx hf
  refine ⟨?_, fun h => ?_, fun h => ?_⟩
  · rw [hproj.1]
    exact hdec.1
  · exact ⟨by rw [hproj.2.1, (hdec.2.1 h).1], by rw [hproj.2.2.1, (hdec.2.1 h).2]⟩
  · exact ⟨by rw [hproj.2.1, (hdec.2.2 h).1], by rw [hproj.2.2.1, (hdec.2.2 h).2]⟩

/-- Witness for C3: an identity hook does not force sampling off, so the
timer handle is cleared and the context applied. -/
theorem veto_semantics_witness :
    (_onStateChange idHook (some routeA) (_onDispatch readySys)).txs[0]? =
      some { blankTransaction with
        context := updatedContextOf blankTransaction.context routeA none false } ∧
    (_onStateChange idHook (some routeA) (_onDispatch readySys))._stateChangeTimeout = none := by
  have h := veto_semantics idHook (_onDispatch readySys) routeA 0 blankTransaction
    (updatedContextOf blankTransaction.context routeA none false) rfl rfl rfl rfl rfl
  exact ⟨h.1, (h.2.2 (by decide)).1⟩

/-- Claim C4: a state-change whose route key equals the latest route's key
runs no decoration — the result does not depend on the hook and the pending
transaction is untouched — yet the key is still recorded in the ledger and
the latest route updated; and after any state-change that yields a route, the
ledger and the latest route are updated regardless. -/
theorem route_change_gating (f : TxContext → Option TxContext) (s : Sys)
    (route p : NavigationRouteV5)
    (hc : s._navigationContainer = some ())
    (hlr : s._latestRoute = some p)
    (hkey : p.key = route.key) :
    (_onStateChange f (some route) s =
      { s with
        _recentRouteKeys := _pushRecentRouteKey s._recentRouteKeys route.key
        _latestRoute := some route }) ∧
    (∀ (g : TxContext → Option TxContext) (s2 : Sys) (r : NavigationRouteV5),
      s2._navigationContainer = some () →
      ((_onStateChange g (some r) s2)._latestRoute = some r ∧
       (_onStateChange g (some r) s2)._recentRouteKeys =
         _pushRecentRouteKey s2._recentRouteKeys r.key)) :=
  ⟨onStateChange_gated f s route p hc hlr hkey,
   fun g s2 r hc2 => onStateChange_route_updates g r s2 hc2⟩

/-- Witness for C4 on a same-key state-change from a seeded state. -/
theorem route_change_gating_witness :
    _onStateChange idHook (some routeA) seededSys =
      { seededSys with
        _recentRouteKeys := _pushRecentRouteKey seededSys._recentRouteKeys routeA.key
        _latestRoute := some routeA } :=
  (route_change_gating idHook seededSys routeA routeA rfl rfl rfl).1

/-- Claim C5: when the hook returns no context, an error is logged, the
pending transaction receives the updated context with `sampled` forced to
false, and the discard timer is not canceled. -/
theorem beforeNavigate_null_fallback (f : TxContext → Option TxContext) (s : Sys)
    (route : NavigationRouteV5) (txId : Nat) (tx : Transaction)
    (hc : s._navigationContainer = some ())
    (hlt : s._latestTransaction = some txId)
    (hrc : routeChanged s._latestRoute route = true)
    (htx : s.txs[txId]? = some tx)
    (hf : f (updatedContextOf tx.context route s._latestRoute
      (s._recentRouteKeys.contains route.key)) = none) :
    ((_onStateChange f (some route) s).txs[txId]? =
      some { tx with context :=
        { updatedContextOf tx.context route s._latestRoute
            (s._recentRouteKeys.contains route.key) with sampled := some false } }) ∧
    LogEntry.errorBeforeNavigateReturnedNull ∈ (_onStateChange f (some route) s).log ∧
    (_onStateChange f (some route) s)._stateChangeTimeout = s._stateChangeTimeout ∧
    (_onStateChange f (some route) s).armedTimers = s.armedTimers := by
  have hproj := onStateChange_decorate_proj f route s txId hc hlt hrc
  have hdec := decorate_none f s route s._latestRoute txId tx htx hf
  exact ⟨by rw [hproj.1]; exact hdec.1,
         by rw [hproj.2.2.2]; exact hdec.2.2.2,
         by rw [hproj.2.1]; exact hdec.2.1,
         by rw [hproj.2.2.1]; exact hdec.2.2.1⟩

/-- Witness for C5 with a hook that returns nothing. -/
theorem beforeNavigate_null_fallback_witness :
    (_onStateChange noneHook (some routeA) (_onDispatch readySys)).txs[0]? =
      some { blankTransaction with
        context := { updatedContextOf blankTransaction.context routeA none false with
          sampled := some false } } ∧
    LogEntry.errorBeforeNavigateReturnedNull ∈
      (_onStateChange noneHook (some routeA) (_onDispatch readySys)).log := by
  have h := beforeNavigate_null_fallback noneHook (_onDispatch readySys) routeA 0
    blankTransaction rfl rfl rfl rfl rfl
  exact ⟨h.1, h.2.1⟩

/-- Claim C6: the updated context extends the snapshot without dropping
fields: `name` becomes the route name, `op` and `sampled` are kept, the
`routing.route.name` tag is set and every other tag kept, `data.route` and
`data.previousRoute` are set as specified and every other data entry kept. -/
theorem updatedContext_extends_snapshot (original : TxContext)
    (route : NavigationRouteV5) (previousRoute : Option NavigationRouteV5) (hbs : Bool) :
    (updatedContextOf original route previousRoute hbs).name = route.name ∧
    (updatedContextOf original route previousRoute hbs).op = original.op ∧
    (updatedContextOf original route previousRoute hbs).sampled = original.sampled ∧
    lookupKey (updatedContextOf original route previousRoute hbs).tags "routing.route.name" =
      some route.name ∧
    (∀ k : String, k ≠ "routing.route.name" →
      lookupKey (updatedContextOf original route previousRoute hbs).tags k =
        lookupKey original.tags k) ∧
    lookupKey (updatedContextOf original route previousRoute hbs).data "route" =
      some (routeDataJVal route hbs) ∧
    lookupKey (updatedContextOf original route previousRoute hbs).data "previousRoute" =
      some (previousRouteJVal previousRoute) ∧
    (∀ k : String, k ≠ "route" → k ≠ "previousRoute" →
      lookupKey (updatedContextOf original route previousRoute hbs).data k =
        lookupKey original.data k) := by
  refine ⟨rfl, rfl, rfl, ?_, ?_, ?_, ?_, ?_⟩
  · exact lookupKey_setKey_self original.tags "routing.route.name" route.name
  · intro k hk
    exact lookupKey_setKey_ne original.tags "routing.route.name" k route.name hk
  · show lookupKey (setKey (setKey original.data "route" (routeDataJVal route hbs))
        "previousRoute" (previousRouteJVal previousRoute)) "route" = some (routeDataJVal route hbs)
    rw [lookupKey_setKey_ne _ "previousRoute" "route" _ (by decide)]
    exact lookupKey_setKey_self original.data "route" (routeDataJVal route hbs)
  · exact lookupKey_setKey_self _ "previousRoute" (previousRouteJVal previousRoute)
  · intro k h1 h2
    show lookupKey (setKey (setKey original.data "route" (routeDataJVal route hbs))
        "previousRoute" (previousRouteJVal previousRoute)) k = lookupKey original.data k
    rw [lookupKey_setKey_ne _ "previousRoute" k _ h2,
      lookupKey_setKey_ne _ "route" k _ h1]

/-- Witness for C6 on the blank template and a concrete route. -/
theorem updatedContext_extends_snapshot_witness :
    (updatedContextOf BLANK_TRANSACTION_CONTEXT_V5 routeA none false).name = "A" ∧
    lookupKey (updatedContextOf BLANK_TRANSACTION_CONTEXT_V5 routeA none false).tags
      "routing.instrumentation" = some instrumentationName := by
  have h := updatedContext_extends_snapshot BLANK_TRANSACTION_CONTEXT_V5 routeA none false
  refine ⟨h.1, ?_⟩
  rw [h.2.2.2.2.1 "routing.instrumentation" (by decide)]
  rfl

/-- Claim C8: the discard callback with a pending transaction forces its
sampled flag to false, invokes its finish operation and clears the pending
reference; with no pending transaction it is a silent no-op. -/
theorem discard_transaction_spec (s : Sys) (txId : Nat) (tx : Transaction)
    (h1 : s._latestTransaction = some txId) (h2 : s.txs[txId]? = some tx) :
    ((_discardLatestTransaction s).txs[txId]? =
      some { context := { tx.context with sampled := some false }, finished := true } ∧
     (_discardLatestTransaction s)._latestTransaction = none) ∧
    (∀ s2 : Sys, s2._latestTransaction = none → _discardLatestTransaction s2 = s2) := by
  refine ⟨discard_pending s txId tx h1 h2, ?_⟩
  intro s2 h
  simp only [_discardLatestTransaction, h]

/-- Witness for C8 after a single dispatch. -/
theorem discard_transaction_spec_witness :
    (_discardLatestTransaction (_onDispatch readySys)).txs[0]? =
      some { context := { BLANK_TRANSACTION_CONTEXT_V5 with sampled := some false },
             finished := true } ∧
    (_discardLatestTransaction (_onDispatch readySys))._latestTransaction = none := by
  have h := discard_transaction_spec (_onDispatch readySys) 0 blankTransaction rfl rfl
  exact ⟨h.1.1, h.1.2⟩

/-- Claim C9: `registerNavigationContainer` is a log-only no-op when the
process-wide flag is already set; on an invalid ref it warns and does not set
the flag or attach listeners; otherwise it attaches the dispatch and the
state-change listeners exactly once each and sets the flag; and the flag never
transitions back from true under any event. -/
theorem register_navigation_container_spec (f : TxContext → Option TxContext)
    (routeNow : Option NavigationRouteV5) (ref : ContainerRef) (s : Sys) :
    (s.registered = true →
      registerNavigationContainer f routeNow ref s =
        { s with log := s.log ++ [LogEntry.logAlreadyRegistered] }) ∧
    (s.registered = false → resolveRef ref = none →
      ((registerNavigationContainer f routeNow ref s).registered = false ∧
       LogEntry.warnInvalidContainerRef ∈ (registerNavigationContainer f routeNow ref s).log ∧
       (registerNavigationContainer f routeNow ref s).listeners = s.listeners)) ∧
    (s.registered = false → resolveRef ref = some () →
      ((registerNavigationContainer f routeNow ref s).registered = true ∧
       (registerNavigationContainer f routeNow ref s).listeners =
         s.listeners ++ ["__unsafe_action__", "state"])) ∧
    (∀ (e : Ev) (s2 : Sys), s2.registered = true → (step f e s2).registered = true) := by
  refine ⟨fun h => ?_, fun h hr => ⟨?_, ?_, ?_⟩, fun h hr => ⟨?_, ?_⟩, fun e s2 h => ?_⟩
  · simp [registerNavigationContainer, h]
  · simp [registerNavigationContainer, h, hr]
  · simp [registerNavigationContainer, h, hr]
  · simp [registerNavigationContainer, h, hr]
  · simp [registerNavigationContainer, h, hr]
  · simp only [registerNavigationContainer, h, hr, Bool.false_eq_true, if_false]
    split
    · rfl
    · split
      · rw [(onStateChange_preserved f routeNow _).2]
      · rfl
  · cases e with
    | dispatch => exact h
    | stateChange route =>
      show (_onStateChange f route s2).registered = true
      rw [(onStateChange_preserved f route s2).1]
      exact h
    | timer tid =>
      show (fireTimer s2 tid).registered = true
      rw [(fireTimer_preserved s2 tid).1]
      exact h
    | register ref2 routeNow2 => exact register_monotone f routeNow2 ref2 s2 h

/-- Witness for C9: a second registration is a log-only no-op, and a first
registration sets the flag. -/
theorem register_navigation_container_spec_witness :
    registerNavigationContainer idHook none (ContainerRef.direct (some ())) regSys =
      { regSys with log := regSys.log ++ [LogEntry.logAlreadyRegistered] } ∧
    (registerNavigationContainer idHook none
      (ContainerRef.direct (some ())) initSys).registered = true := by
  have h := register_navigation_container_spec idHook none (ContainerRef.direct (some ())) regSys
  have h2 := register_navigation_container_spec idHook none (ContainerRef.direct (some ())) initSys
  exact ⟨h.1 rfl, (h2.2.2.1 rfl rfl).1⟩

/-- Claim C10: a state-change whose route key equals the latest route's key
does not cancel the armed discard timer (the gated branch is the only place
the timer is cleared, and it is skipped), so the pending transaction is still
discarded — sampled forced false, finished, reference cleared — when its
timer fires, despite the state-change having arrived. -/
theorem same_key_stateChange_keeps_timer (f : TxContext → Option TxContext) (s : Sys)
    (r route : NavigationRouteV5)
    (hc : s._navigationContainer = some ())
    (hlr : s._latestRoute = some r)
    (hkey : r.key = route.key) :
    ((_onStateChange f (some route) (_onDispatch s)).armedTimers =
      s.nextTimer :: s.armedTimers ∧
     (_onStateChange f (some route) (_onDispatch s))._stateChangeTimeout =
      some s.nextTimer) ∧
    (fireTimer (_onStateChange f (some route) (_onDispatch s)) s.nextTimer).txs[s.txs.length]? =
      some { context := { BLANK_TRANSACTION_CONTEXT_V5 with sampled := some false },
             finished := true } ∧
    (fireTimer (_onStateChange f (some route) (_onDispatch s)) s.nextTimer)._latestTransaction =
      none := by
  have hgate := onStateChange_gated f (_onDispatch s) route r hc hlr hkey
  have hXa : (_onStateChange f (some route) (_onDispatch s)).armedTimers =
      s.nextTimer :: s.armedTimers := by
    rw [hgate]
    rfl
  have hXlt : (_onStateChange f (some route) (_onDispatch s))._latestTransaction =
      some s.txs.length := by
    rw [hgate]
    rfl
  have hXtxs : (_onStateChange f (some route) (_onDispatch s)).txs =
      s.txs ++ [blankTransaction] := by
    rw [hgate]
    rfl
  have hXto : (_onStateChange f (some route) (_onDispatch s))._stateChangeTimeout =
      some s.nextTimer := by
    rw [hgate]
    rfl
  have hmem : s.nextTimer ∈ (_onStateChange f (some route) (_onDispatch s)).armedTimers := by
    rw [hXa]
    exact List.mem_cons_self _ _
  have hfire : fireTimer (_onStateChange f (some route) (_onDispatch s)) s.nextTimer =
      _discardLatestTransaction
        { (_onStateChange f (some route) (_onDispatch s)) with
          armedTimers :=
            ((_onStateChange f (some route) (_onDispatch s)).armedTimers).erase s.nextTimer } := by
    unfold fireTimer
    rw [if_pos hmem]
  have h2Y : ({ (_onStateChange f (some route) (_onDispatch s)) with
      armedTimers :=
        ((_onStateChange f (some route) (_onDispatch s)).armedTimers).erase
          s.nextTimer }).txs[s.txs.length]? = some blankTransaction := by
    show (_onStateChange f (some route) (_onDispatch s)).txs[s.txs.length]? =
      some blankTransaction
    rw [hXtxs]
    exact List.getElem?_concat_length s.txs blankTransaction
  have hdisc := discard_pending
      { (_onStateChange f (some route) (_onDispatch s)) with
        armedTimers :=
          ((_onStateChange f (some route) (_onDispatch s)).armedTimers).erase s.nextTimer }
      s.txs.length blankTransaction hXlt h2Y
  refine ⟨⟨hXa, hXto⟩, ?_, ?_⟩
  · rw [hfire]
    exact hdisc.1
  · rw [hfire]
    exact hdisc.2

/-- Witness for C10 from a seeded state with the same route key. -/
theorem same_key_stateChange_keeps_timer_witness :
    (_onStateChange idHook (some routeA) (_onDispatch seededSys)).armedTimers = [0] ∧
    (fireTimer (_onStateChange idHook (some routeA) (_onDispatch seededSys)) 0).txs[0]? =
      some { context := { BLANK_TRANSACTION_CONTEXT_V5 with sampled := some false },
             finished := true } := by
  have h := same_key_stateChange_keeps_timer idHook seededSys routeA routeA rfl rfl rfl
  exact ⟨h.1.1, h.2.1⟩

end SentryReactNavigationV5
